import Mathlib

/-!
Shallow embedding of `src/main.rs` of the `ethers-rusty` repository: a one-shot
transaction submitter that loads a configuration from the process environment,
queries balances and the gas price, estimates the gas of a
`lock(user, token, amount, nonce, signature)` contract call, performs an
affordability check, submits the call and awaits its receipt.

Machine integers (`u64`, `U256`) are modelled as `Nat` with explicit `2 ^ 64` /
`2 ^ 256` bounds where the Rust code checks or panics on overflow.  Network
interactions are modelled by an oracle record (`Chain`) holding the outcome of
each chain query, and the run produces a trace of observable events together
with a process outcome.
-/

/-- 2^256, the number of values of the Rust `U256` type. -/
def u256Size : Nat := 2 ^ 256

/-- 2^64, the number of values of the Rust `u64` type. -/
def u64Size : Nat := 2 ^ 64

/-- Value of an ASCII decimal digit, `none` on any other character
(mirrors the per-byte check in `uint`'s `from_dec_str`). -/
def decDigit? (c : Char) : Option Nat :=
  if '0' ≤ c ∧ c ≤ '9' then some (c.toNat - 48) else none

/-- Value of an ASCII hexadecimal digit (both cases), `none` otherwise. -/
def hexDigit? (c : Char) : Option Nat :=
  if '0' ≤ c ∧ c ≤ '9' then some (c.toNat - 48)
  else if 'a' ≤ c ∧ c ≤ 'f' then some (c.toNat - 87)
  else if 'A' ≤ c ∧ c ≤ 'F' then some (c.toNat - 55)
  else none

/-- Accumulator loop of a radix parse: exactly the shape of the digit loops in
the `uint` crate (`res = res * base + digit`), with `none` on a bad character. -/
def digitsValueAux (digit? : Char → Option Nat) (base : Nat) (acc : Nat) :
    List Char → Option Nat
  | [] => some acc
  | c :: cs =>
    match digit? c with
    | none => none
    | some d => digitsValueAux digit? base (acc * base + d) cs

/-- Radix parse of a character list starting from accumulator `0`. -/
def digitsValue? (digit? : Char → Option Nat) (base : Nat) (cs : List Char) :
    Option Nat :=
  digitsValueAux digit? base 0 cs

/-- Reference big-endian value of a digit list in a given base (used to state
what the parsers compute, independent of the accumulator loop). -/
def baseVal (base : Nat) : List Nat → Nat
  | [] => 0
  | d :: ds => d * base ^ ds.length + baseVal base ds

/-- `strip_prefix("0x")` on a character list: drop a leading `0x` marker if
present, keep the list unchanged otherwise. -/
def stripHexMarker : List Char → List Char
  | '0' :: 'x' :: rest => rest
  | cs => cs

/-- A configuration-loading failure.  The Rust code propagates the underlying
`std::env::VarError` / parse errors through `anyhow`, so the only observable
content is the error's display message. -/
structure ConfigError where
  message : String
deriving DecidableEq, Repr

/-- `std::env::var name` on a process environment modelled as an association
list.  A missing variable yields `VarError::NotPresent`, whose display text is
the generic "environment variable not found" — it does not carry the name. -/
def envVar (env : List (String × String)) (name : String) :
    Except ConfigError String :=
  match env with
  | [] => Except.error ⟨"environment variable not found"⟩
  | (k, v) :: rest => if k = name then Except.ok v else envVar rest name

/-- Rust `u64::from_str` (used for `CHAIN_ID`): optional leading `+`, then a
nonempty run of decimal digits, rejecting values `≥ 2^64`. -/
def parseU64 (s : String) : Except ConfigError Nat :=
  let body := match s.toList with
    | '+' :: rest => rest
    | cs => cs
  if body.isEmpty then Except.error ⟨"cannot parse integer from empty string"⟩
  else
    match digitsValue? decDigit? 10 body with
    | none => Except.error ⟨"invalid digit found in string"⟩
    | some v =>
      if v < u64Size then Except.ok v
      else Except.error ⟨"number too large to fit in target type"⟩

/-- `H160::from_str` (used for the three addresses): an optional `0x` marker
followed by exactly 40 hexadecimal digits. -/
def parseAddress (s : String) : Except ConfigError Nat :=
  let body := stripHexMarker s.toList
  if body.length = 40 then
    match digitsValue? hexDigit? 16 body with
    | some v => Except.ok v
    | none => Except.error ⟨"invalid hex character"⟩
  else Except.error ⟨"invalid hex length"⟩

/-- `U256::from_dec_str` (used for `AMOUNT`): decimal digits only, value must
fit in 256 bits.  The per-step overflow check of the `uint` loop triggers
exactly when the full decimal value is `≥ 2^256`. -/
def from_dec_str (s : String) : Except ConfigError Nat :=
  match digitsValue? decDigit? 10 s.toList with
  | none => Except.error ⟨"a character is not in the range 0-9"⟩
  | some v =>
    if v < u256Size then Except.ok v
    else Except.error ⟨"number exceeds maximum value for type"⟩

/-- `U256`'s `FromStr` (used for `NONCE` via `.parse()`): the `uint` crate
parses HEXADECIMAL here — an optional `0x` marker, then at most 64 hex digits.
This is the parser the source applies to the `NONCE` environment variable. -/
def u256_from_str (s : String) : Except ConfigError Nat :=
  let body := stripHexMarker s.toList
  if body.length ≤ 64 then
    match digitsValue? hexDigit? 16 body with
    | some v => Except.ok v
    | none => Except.error ⟨"invalid hex character"⟩
  else Except.error ⟨"invalid hex length"⟩

/-- Hex decoding of a byte string (pairs of hex digits), as `hex::decode`. -/
def bytesFromHex? : List Char → Option (List Nat)
  | [] => some []
  | [_] => none
  | c1 :: c2 :: rest =>
    match hexDigit? c1, hexDigit? c2, bytesFromHex? rest with
    | some d1, some d2, some bs => some ((d1 * 16 + d2) :: bs)
    | _, _, _ => none

/-- `Bytes::from_str` (used for `SIGNATURE`): optional `0x` marker, then an
even-length run of hex digits, decoded to bytes. -/
def parseBytes (s : String) : Except ConfigError (List Nat) :=
  match bytesFromHex? (stripHexMarker s.toList) with
  | some bs => Except.ok bs
  | none => Except.error ⟨"invalid hex"⟩

/-- Propositional equality on `Except` results is decidable when it is on both
sides (needed to evaluate concrete parses in proofs). -/
instance {ε α : Type} [DecidableEq ε] [DecidableEq α] :
    DecidableEq (Except ε α) := fun a b =>
  match a, b with
  | Except.ok x, Except.ok y =>
    if h : x = y then isTrue (by rw [h]) else isFalse (by simp [h])
  | Except.error x, Except.error y =>
    if h : x = y then isTrue (by rw [h]) else isFalse (by simp [h])
  | Except.ok _, Except.error _ => isFalse (by simp)
  | Except.error _, Except.ok _ => isFalse (by simp)

/-- The parsed configuration, `main.rs` lines 15-24. -/
structure Config where
  rpcUrl : String
  privateKey : String
  chainId : Nat
  contractAddress : Nat
  userAddress : Nat
  tokenAddress : Nat
  amount : Nat
  nonce : Nat
  signature : List Nat
deriving DecidableEq, Repr

/-- Configuration loading, `main.rs` lines 15-24: nine environment reads, each
`?`-propagating, in source order.  No network activity happens here. -/
def loadConfig (env : List (String × String)) : Except ConfigError Config := do
  let rpcUrl ← envVar env "RPC_URL"
  let privateKey ← envVar env "PRIVATE_KEY"
  let chainId ← parseU64 (← envVar env "CHAIN_ID")
  let contractAddress ← parseAddress (← envVar env "CONTRACT_ADDRESS")
  let userAddress ← parseAddress (← envVar env "USER_ADDRESS")
  let tokenAddress ← parseAddress (← envVar env "TOKEN_ADDRESS")
  let amount ← from_dec_str (← envVar env "AMOUNT")
  let nonce ← u256_from_str (← envVar env "NONCE")
  let signature ← parseBytes (← envVar env "SIGNATURE")
  pure { rpcUrl, privateKey, chainId, contractAddress, userAddress,
         tokenAddress, amount, nonce, signature }

/-- A transaction receipt, as used by `main.rs` lines 96-105: optional block
number, optional gas used, optional numeric status. -/
structure Receipt where
  blockNumber : Option Nat
  gasUsed : Option Nat
  status : Option Nat
deriving DecidableEq, Repr

/-- Oracle for the chain client: the outcome each network-facing operation of
this run would produce.  `connect` stands for provider construction plus
wallet-key parsing (lines 37-41) and yields the wallet address on success. -/
structure Chain where
  connect : Except String Nat
  walletBalance : Except String Nat
  userBalance : Except String Nat
  gasPrice : Except String Nat
  estimateGas : Except String Nat
  sendResult : Except String Nat
  receiptResult : Except String (Option Receipt)
deriving Repr

/-- Observable events of a run: console reports and chain-client invocations,
in program order. -/
inductive Event where
  | printConfig (cfg : Config)
  | connectCall
  | queryBalance (addr : Nat)
  | printWalletBalance (v : Nat)
  | printUserBalance (v : Nat)
  | queryGasPrice
  | printGasPrice (v : Nat)
  | printTxValue (v : Nat)
  | estimateGasCall
  | printEstimate (g : Nat)
  | printTotalCost (c : Nat)
  | printInsufficient (need has : Nat)
  | printSufficient
  | printEstimateFailed (e : String)
  | submitCall (user token amount nonce : Nat) (sig : List Nat) (value : Nat)
  | printTxHash (h : Nat)
  | awaitReceiptCall
  | printMined (block : Option Nat) (gasUsed : Nat) (label : String)
  | printNoReceipt
deriving DecidableEq, Repr

/-- Final outcome of the process: `ok` is exit code 0; a `?`-propagated error
and a panic both terminate with a nonzero code. -/
inductive Outcome where
  | ok
  | fatal (msg : String)
  | panicked (msg : String)
deriving DecidableEq, Repr

/-- Whether the outcome is exit code 0. -/
def Outcome.exitsZero : Outcome → Bool
  | Outcome.ok => true
  | _ => false

/-- Is this event an invocation of `submit` (`call.send()`)? -/
def Event.isSubmit : Event → Bool
  | Event.submitCall _ _ _ _ _ _ => true
  | _ => false

/-- Is this event an invocation of `await_receipt` (awaiting the pending
transaction)? -/
def Event.isAwaitReceipt : Event → Bool
  | Event.awaitReceiptCall => true
  | _ => false

/-- Is this event a network operation (client construction, balance query,
gas-price query, estimation, submission or receipt wait)? -/
def Event.isNetwork : Event → Bool
  | Event.connectCall => true
  | Event.queryBalance _ => true
  | Event.queryGasPrice => true
  | Event.estimateGasCall => true
  | Event.submitCall _ _ _ _ _ _ => true
  | Event.awaitReceiptCall => true
  | _ => false

/-- `r.status.unwrap_or_default() == U64::from(1)` selects the label printed
on line 100. -/
def statusLabel (status : Option Nat) : String :=
  if status.getD 0 = 1 then "Success" else "Failed"

/-- `gas_estimate * gas_price + amount` on `U256` (line 70).  The `uint` crate
panics on overflow of `*` and `+` (it never wraps), modelled as `none`. -/
def computeTotalCost (gasEstimate gasPrice amount : Nat) : Option Nat :=
  if gasEstimate * gasPrice < u256Size then
    if gasEstimate * gasPrice + amount < u256Size then
      some (gasEstimate * gasPrice + amount)
    else none
  else none

/-- The submission event for this configuration: the call is
`contract.lock(user, token, amount, nonce, signature)` carrying the amount as
attached value (line 61). -/
def submitEvent (cfg : Config) : Event :=
  Event.submitCall cfg.userAddress cfg.tokenAddress cfg.amount cfg.nonce
    cfg.signature cfg.amount

/-- Lines 90-105: broadcast the signed call, print the hash, await the
receipt, and report it (`None` receipts are reported, not escalated). -/
def submitPhase (cfg : Config) (sendResult : Except String Nat)
    (receiptResult : Except String (Option Receipt)) : List Event × Outcome :=
  match sendResult with
  | Except.error e => ([submitEvent cfg], Outcome.fatal e)
  | Except.ok txHash =>
    match receiptResult with
    | Except.error e =>
      ([submitEvent cfg, Event.printTxHash txHash, Event.awaitReceiptCall],
       Outcome.fatal e)
    | Except.ok (some r) =>
      ([submitEvent cfg, Event.printTxHash txHash, Event.awaitReceiptCall,
        Event.printMined r.blockNumber (r.gasUsed.getD 0) (statusLabel r.status)],
       Outcome.ok)
    | Except.ok none =>
      ([submitEvent cfg, Event.printTxHash txHash, Event.awaitReceiptCall,
        Event.printNoReceipt],
       Outcome.ok)

/-- Lines 67-105: the `match call.estimate_gas().await` and everything after
it.  On success the affordability check may end the run with `Ok(())`; on
failure a diagnostic is printed and control FALLS THROUGH to the send. -/
def estimatePhase (cfg : Config) (estimateGas sendResult : Except String Nat)
    (receiptResult : Except String (Option Receipt)) (gasPrice balance : Nat) :
    List Event × Outcome :=
  match estimateGas with
  | Except.ok gasEstimate =>
    match computeTotalCost gasEstimate gasPrice cfg.amount with
    | none =>
      ([Event.printEstimate gasEstimate],
       Outcome.panicked "arithmetic operation overflow")
    | some totalCost =>
      if totalCost > balance then
        ([Event.printEstimate gasEstimate, Event.printTotalCost totalCost,
          Event.printInsufficient totalCost balance],
         Outcome.ok)
      else
        let rest := submitPhase cfg sendResult receiptResult
        (Event.printEstimate gasEstimate :: Event.printTotalCost totalCost ::
           Event.printSufficient :: rest.1,
         rest.2)
  | Except.error e =>
    let rest := submitPhase cfg sendResult receiptResult
    (Event.printEstimateFailed e :: rest.1, rest.2)

/-- The body of `main` after configuration loading (lines 26-107): print the
configuration, build the client, query both balances and the gas price, then
run the estimation/affordability/submission phase. -/
def run (cfg : Config) (ch : Chain) : List Event × Outcome :=
  match ch.connect with
  | Except.error e => ([Event.printConfig cfg, Event.connectCall], Outcome.fatal e)
  | Except.ok walletAddr =>
    match ch.walletBalance with
    | Except.error e =>
      ([Event.printConfig cfg, Event.connectCall, Event.queryBalance walletAddr],
       Outcome.fatal e)
    | Except.ok balance =>
      match ch.userBalance with
      | Except.error e =>
        ([Event.printConfig cfg, Event.connectCall, Event.queryBalance walletAddr,
          Event.printWalletBalance balance, Event.queryBalance cfg.userAddress],
         Outcome.fatal e)
      | Except.ok userBal =>
        match ch.gasPrice with
        | Except.error e =>
          ([Event.printConfig cfg, Event.connectCall,
            Event.queryBalance walletAddr, Event.printWalletBalance balance,
            Event.queryBalance cfg.userAddress, Event.printUserBalance userBal,
            Event.queryGasPrice],
           Outcome.fatal e)
        | Except.ok gasPrice =>
          let rest := estimatePhase cfg ch.estimateGas ch.sendResult
            ch.receiptResult gasPrice balance
          (Event.printConfig cfg :: Event.connectCall ::
             Event.queryBalance walletAddr :: Event.printWalletBalance balance ::
             Event.queryBalance cfg.userAddress :: Event.printUserBalance userBal ::
             Event.queryGasPrice :: Event.printGasPrice gasPrice ::
             Event.printTxValue cfg.amount :: Event.estimateGasCall :: rest.1,
           rest.2)

/-- The whole process: `main` from line 13.  A configuration error aborts via
`?` before any event — in particular before any network operation. -/
def fullRun (env : List (String × String)) (ch : Chain) : List Event × Outcome :=
  match loadConfig env with
  | Except.error e => ([], Outcome.fatal e.message)
  | Except.ok cfg => run cfg ch

/-- "`submit` is never invoked" over a trace. -/
def neverSubmits (t : List Event) : Prop :=
  ∀ e ∈ t, Event.isSubmit e = false

/-- "`await_receipt` is never invoked" over a trace. -/
def neverAwaits (t : List Event) : Prop :=
  ∀ e ∈ t, Event.isAwaitReceipt e = false

/-- Erase the one piece of data the user-balance query contributes to the
observable behaviour: the value on its printed line. -/
def redactUserBalance : Event → Event
  | Event.printUserBalance _ => Event.printUserBalance 0
  | e => e

/-- The ten events every run emits once all four read-only queries succeed,
before the estimation result is inspected (lines 26-67). -/
def queryEvents (cfg : Config) (walletAddr balance userBal gasPrice : Nat) :
    List Event :=
  [Event.printConfig cfg, Event.connectCall, Event.queryBalance walletAddr,
   Event.printWalletBalance balance, Event.queryBalance cfg.userAddress,
   Event.printUserBalance userBal, Event.queryGasPrice,
   Event.printGasPrice gasPrice, Event.printTxValue cfg.amount,
   Event.estimateGasCall]

/-- A complete well-formed environment whose `NONCE` variable is the decimal
string "10". -/
def envNonce10 : List (String × String) :=
  [("RPC_URL", "http://localhost:8545"), ("PRIVATE_KEY", "abc123"),
   ("CHAIN_ID", "1"),
   ("CONTRACT_ADDRESS", "0x00000000000000000000000000000000000000aa"),
   ("USER_ADDRESS", "0x00000000000000000000000000000000000000bb"),
   ("TOKEN_ADDRESS", "0x00000000000000000000000000000000000000cc"),
   ("AMOUNT", "1000000000000000000"), ("NONCE", "10"),
   ("SIGNATURE", "0xdeadbeef")]

/-- An environment that is well formed except that `NONCE` is absent. -/
def envMissingNonce : List (String × String) :=
  [("RPC_URL", "http://localhost:8545"), ("PRIVATE_KEY", "abc123"),
   ("CHAIN_ID", "1"),
   ("CONTRACT_ADDRESS", "0x00000000000000000000000000000000000000aa"),
   ("USER_ADDRESS", "0x00000000000000000000000000000000000000bb"),
   ("TOKEN_ADDRESS", "0x00000000000000000000000000000000000000cc"),
   ("AMOUNT", "1000000000000000000"), ("SIGNATURE", "0xdeadbeef")]

/-- An environment that is well formed except that `SIGNATURE` is absent. -/
def envMissingSig : List (String × String) :=
  [("RPC_URL", "http://localhost:8545"), ("PRIVATE_KEY", "abc123"),
   ("CHAIN_ID", "1"),
   ("CONTRACT_ADDRESS", "0x00000000000000000000000000000000000000aa"),
   ("USER_ADDRESS", "0x00000000000000000000000000000000000000bb"),
   ("TOKEN_ADDRESS", "0x00000000000000000000000000000000000000cc"),
   ("AMOUNT", "1000000000000000000"), ("NONCE", "10")]

/-- The configuration `loadConfig` produces from `envNonce10`. -/
def cfgEx : Config :=
  { rpcUrl := "http://localhost:8545", privateKey := "abc123", chainId := 1,
    contractAddress := 170, userAddress := 187, tokenAddress := 204,
    amount := 1000000000000000000, nonce := 16,
    signature := [222, 173, 190, 239] }

/-- A successfully mined receipt with status 1. -/
def receiptOk : Receipt :=
  { blockNumber := some 100, gasUsed := some 21000, status := some 1 }

/-- A chain on which every query succeeds, the wallet holds 1000 ether, gas
estimation succeeds, and the transaction confirms with status 1. -/
def chHappy : Chain :=
  { connect := Except.ok 7,
    walletBalance := Except.ok 1000000000000000000000,
    userBalance := Except.ok 5, gasPrice := Except.ok 50,
    estimateGas := Except.ok 21000, sendResult := Except.ok 42,
    receiptResult := Except.ok (some receiptOk) }

/-- Like `chHappy` but gas estimation fails. -/
def chEstFail : Chain :=
  { chHappy with estimateGas := Except.error "execution reverted" }

/-- Like `chHappy` but the wallet holds only 0.5 ether
(end-to-end scenario B of the specification). -/
def chPoor : Chain :=
  { chHappy with walletBalance := Except.ok 500000000000000000 }

/-- Like `chHappy` but the broadcast is rejected. -/
def chSendFail : Chain :=
  { chHappy with sendResult := Except.error "nonce too low" }

/-- Like `chHappy` but no receipt is found after waiting. -/
def chNoReceipt : Chain :=
  { chHappy with receiptResult := Except.ok none }

/-- A mined receipt that carries no gas-used field and status 0. -/
def receiptNoGas : Receipt :=
  { blockNumber := some 100, gasUsed := none, status := some 0 }

/-- Like `chHappy` but the receipt carries no gas-used field and status 0. -/
def chNoGasUsed : Chain :=
  { chHappy with receiptResult := Except.ok (some receiptNoGas) }

/-- Digit values of a character list when every character is a digit of the
given alphabet, `none` as soon as one is not. -/
def allDigits? (digit? : Char → Option Nat) : List Char → Option (List Nat)
  | [] => some []
  | c :: cs =>
    match digit? c, allDigits? digit? cs with
    | some d, some ds => some (d :: ds)
    | _, _ => none

/-- The accumulator loop computes the big-endian base value of the digit
list, shifted under the starting accumulator. -/
lemma digitsValueAux_eq (digit? : Char → Option Nat) (b : Nat) :
    ∀ (cs : List Char) (acc : Nat),
      digitsValueAux digit? b acc cs =
        (allDigits? digit? cs).map (fun ds => acc * b ^ ds.length + baseVal b ds)
  | [], acc => by simp [digitsValueAux, allDigits?, baseVal]
  | c :: cs, acc => by
    cases h : digit? c with
    | none => simp [digitsValueAux, allDigits?, h]
    | some d =>
      have ih := digitsValueAux_eq digit? b cs (acc * b + d)
      cases hm : allDigits? digit? cs with
      | none => simp [digitsValueAux, allDigits?, h, hm, ih]
      | some ds =>
        simp [digitsValueAux, allDigits?, h, hm, ih, baseVal, pow_succ]
        ring

/-- A radix parse succeeds exactly on all-digit strings and returns their
big-endian base value. -/
lemma digitsValue?_eq (digit? : Char → Option Nat) (b : Nat) (cs : List Char) :
    digitsValue? digit? b cs = (allDigits? digit? cs).map (baseVal b) := by
  rw [digitsValue?, digitsValueAux_eq]
  cases hm : allDigits? digit? cs with
  | none => simp
  | some ds => simp

/-- The submit phase always begins by invoking `submit`. -/
lemma submitPhase_fst (cfg : Config) (sr : Except String Nat)
    (rr : Except String (Option Receipt)) :
    ∃ rest, (submitPhase cfg sr rr).1 = submitEvent cfg :: rest := by
  cases sr with
  | error e => exact ⟨[], rfl⟩
  | ok h =>
    cases rr with
    | error e => exact ⟨_, rfl⟩
    | ok r =>
      cases r with
      | none => exact ⟨_, rfl⟩
      | some rc => exact ⟨_, rfl⟩

/-- The submit phase never reports an insufficiency verdict. -/
lemma submitPhase_no_insufficient (cfg : Config) (sr : Except String Nat)
    (rr : Except String (Option Receipt)) (t b : Nat) :
    Event.printInsufficient t b ∉ (submitPhase cfg sr rr).1 := by
  cases sr with
  | error e => simp [submitPhase, submitEvent]
  | ok h =>
    cases rr with
    | error e => simp [submitPhase, submitEvent]
    | ok r =>
      cases r with
      | none => simp [submitPhase, submitEvent]
      | some rc => simp [submitPhase, submitEvent]

/-- The submit phase never prints a total cost. -/
lemma submitPhase_no_totalCost (cfg : Config) (sr : Except String Nat)
    (rr : Except String (Option Receipt)) (t : Nat) :
    Event.printTotalCost t ∉ (submitPhase cfg sr rr).1 := by
  cases sr with
  | error e => simp [submitPhase, submitEvent]
  | ok h =>
    cases rr with
    | error e => simp [submitPhase, submitEvent]
    | ok r =>
      cases r with
      | none => simp [submitPhase, submitEvent]
      | some rc => simp [submitPhase, submitEvent]

/-- When the broadcast succeeds, the submit phase invokes `await_receipt`. -/
lemma submitPhase_await_of_ok (cfg : Config) (h : Nat)
    (rr : Except String (Option Receipt)) :
    Event.awaitReceiptCall ∈ (submitPhase cfg (Except.ok h) rr).1 := by
  cases rr with
  | error e => simp [submitPhase]
  | ok r =>
    cases r with
    | none => simp [submitPhase]
    | some rc => simp [submitPhase]

/-- None of the ten pre-estimation events is a `submit` or `await_receipt`
invocation. -/
lemma queryEvents_no_submit (cfg : Config) (w b u g : Nat) :
    ∀ e ∈ queryEvents cfg w b u g,
      Event.isSubmit e = false ∧ Event.isAwaitReceipt e = false := by
  intro e he
  fin_cases he <;> exact ⟨rfl, rfl⟩

/-- When all four read-only queries succeed, the run is the ten query events
followed by the estimation phase. -/
lemma run_queries_ok (cfg : Config) (ch : Chain) (w bal ubal gp : Nat)
    (hc : ch.connect = Except.ok w)
    (hw : ch.walletBalance = Except.ok bal)
    (hu : ch.userBalance = Except.ok ubal)
    (hg : ch.gasPrice = Except.ok gp) :
    run cfg ch =
      (queryEvents cfg w bal ubal gp ++
         (estimatePhase cfg ch.estimateGas ch.sendResult ch.receiptResult gp bal).1,
       (estimatePhase cfg ch.estimateGas ch.sendResult ch.receiptResult gp bal).2) := by
  simp [run, hc, hw, hu, hg, queryEvents]

/-- `statusLabel` maps a status to "Success" precisely on the value 1. -/
lemma statusLabel_success_iff (st : Option Nat) :
    statusLabel st = "Success" ↔ st = some 1 := by
  cases st with
  | none => simp [statusLabel]
  | some n =>
    by_cases h : n = 1
    · simp [statusLabel, h]
    · simp [statusLabel, h]

/-- `statusLabel` maps every status other than 1 — including an absent
status — to "Failed". -/
lemma statusLabel_failed (st : Option Nat) (h : st ≠ some 1) :
    statusLabel st = "Failed" := by
  cases st with
  | none => simp [statusLabel]
  | some n =>
    have : n ≠ 1 := by intro hn; exact h (by rw [hn])
    simp [statusLabel, this]

/-- A sufficient-funds run whose broadcast succeeds and whose wait yields a
receipt reports that receipt's fields and ends with exit code 0. -/
lemma run_receipt_reported
    (cfg : Config) (ch : Chain) (w bal ubal gp gas total txh : Nat) (rc : Receipt)
    (hc : ch.connect = Except.ok w)
    (hw : ch.walletBalance = Except.ok bal)
    (hu : ch.userBalance = Except.ok ubal)
    (hg : ch.gasPrice = Except.ok gp)
    (he : ch.estimateGas = Except.ok gas)
    (ht : computeTotalCost gas gp cfg.amount = some total)
    (hle : ¬ total > bal)
    (hs : ch.sendResult = Except.ok txh)
    (hr : ch.receiptResult = Except.ok (some rc)) :
    Event.printMined rc.blockNumber (rc.gasUsed.getD 0) (statusLabel rc.status) ∈
      (run cfg ch).1 ∧
    (run cfg ch).2 = Outcome.ok := by
  rw [run_queries_ok cfg ch w bal ubal gp hc hw hu hg]
  have hphase : estimatePhase cfg ch.estimateGas ch.sendResult ch.receiptResult gp bal =
      (Event.printEstimate gas :: Event.printTotalCost total ::
         Event.printSufficient :: (submitPhase cfg ch.sendResult ch.receiptResult).1,
       (submitPhase cfg ch.sendResult ch.receiptResult).2) := by
    simp [estimatePhase.eq_def, he, ht, hle]
  have hsub : submitPhase cfg ch.sendResult ch.receiptResult =
      ([submitEvent cfg, Event.printTxHash txh, Event.awaitReceiptCall,
        Event.printMined rc.blockNumber (rc.gasUsed.getD 0) (statusLabel rc.status)],
       Outcome.ok) := by
    simp [submitPhase, hs, hr]
  rw [hphase, hsub]
  exact ⟨by simp, rfl⟩

/-- An exit-code-0 run always ends in one of the three defined terminal
reports: an insufficiency verdict, a mined receipt, or a missing receipt. -/
lemma run_ok_cases (cfg : Config) (ch : Chain)
    (h : (run cfg ch).2 = Outcome.ok) :
    (∃ t b, Event.printInsufficient t b ∈ (run cfg ch).1) ∨
    (∃ bl g s, Event.printMined bl g s ∈ (run cfg ch).1) ∨
    Event.printNoReceipt ∈ (run cfg ch).1 := by
  obtain ⟨cn, wb, ub, gp, eg, sr, rr⟩ := ch
  cases cn with
  | error e => simp [run] at h
  | ok w =>
  cases wb with
  | error e => simp [run] at h
  | ok bal =>
  cases ub with
  | error e => simp [run] at h
  | ok ubal =>
  cases gp with
  | error e => simp [run] at h
  | ok gasPrice =>
  cases eg with
  | error err =>
    cases sr with
    | error e2 => simp [run, estimatePhase.eq_def, submitPhase] at h
    | ok txh =>
      cases rr with
      | error e3 => simp [run, estimatePhase.eq_def, submitPhase] at h
      | ok r =>
        cases r with
        | none =>
          right; right
          simp [run, estimatePhase.eq_def, submitPhase]
        | some rc =>
          right; left
          refine ⟨rc.blockNumber, rc.gasUsed.getD 0, statusLabel rc.status, ?_⟩
          simp [run, estimatePhase.eq_def, submitPhase]
  | ok gas =>
    cases hct : computeTotalCost gas gasPrice cfg.amount with
    | none => simp [run, estimatePhase.eq_def, hct] at h
    | some t =>
      by_cases hgt : t > bal
      · left
        refine ⟨t, bal, ?_⟩
        simp [run, estimatePhase.eq_def, hct, hgt]
      · cases sr with
        | error e2 => simp [run, estimatePhase.eq_def, hct, hgt, submitPhase] at h
        | ok txh =>
          cases rr with
          | error e3 => simp [run, estimatePhase.eq_def, hct, hgt, submitPhase] at h
          | ok r =>
            cases r with
            | none =>
              right; right
              simp [run, estimatePhase.eq_def, hct, hgt, submitPhase]
            | some rc =>
              right; left
              refine ⟨rc.blockNumber, rc.gasUsed.getD 0, statusLabel rc.status, ?_⟩
              simp [run, estimatePhase.eq_def, hct, hgt, submitPhase]

/-- C1 counterexample: on a run where `estimate_gas` fails (`chEstFail`), the
trace nevertheless contains a `submit` invocation and an `await_receipt`
invocation — refuting the claim that neither is ever invoked after an
estimation failure. -/
theorem estimate_failure_submits_anyway_cex :
    chEstFail.estimateGas = Except.error "execution reverted" ∧
    ¬ neverSubmits (run cfgEx chEstFail).1 ∧
    Event.awaitReceiptCall ∈ (run cfgEx chEstFail).1 := by
  refine ⟨rfl, ?_, by decide⟩
  intro hns
  have := hns (submitEvent cfgEx) (by decide)
  simp [submitEvent, Event.isSubmit] at this

/-- C1 (amended): when `estimate_gas` fails, the run prints the diagnostic but
does NOT stop — the `Err` arm of the match falls through to `call.send()`, so
`submit` is invoked (and `await_receipt` too whenever the broadcast succeeds),
and no total cost is computed or compared on this path. -/
theorem estimate_failure_falls_through_to_submission
    (cfg : Config) (ch : Chain) (w bal ubal gp : Nat) (err : String)
    (hc : ch.connect = Except.ok w)
    (hw : ch.walletBalance = Except.ok bal)
    (hu : ch.userBalance = Except.ok ubal)
    (hg : ch.gasPrice = Except.ok gp)
    (he : ch.estimateGas = Except.error err) :
    Event.printEstimateFailed err ∈ (run cfg ch).1 ∧
    submitEvent cfg ∈ (run cfg ch).1 ∧
    (∀ h, ch.sendResult = Except.ok h → Event.awaitReceiptCall ∈ (run cfg ch).1) ∧
    (∀ t b, Event.printInsufficient t b ∉ (run cfg ch).1) ∧
    (∀ t, Event.printTotalCost t ∉ (run cfg ch).1) := by
  rw [run_queries_ok cfg ch w bal ubal gp hc hw hu hg]
  have hphase : estimatePhase cfg ch.estimateGas ch.sendResult ch.receiptResult gp bal =
      (Event.printEstimateFailed err :: (submitPhase cfg ch.sendResult ch.receiptResult).1,
       (submitPhase cfg ch.sendResult ch.receiptResult).2) := by
    simp [estimatePhase.eq_def, he]
  rw [hphase]
  obtain ⟨rest, hrest⟩ := submitPhase_fst cfg ch.sendResult ch.receiptResult
  refine ⟨by simp, ?_, ?_, ?_, ?_⟩
  · simp [hrest]
  · intro h hs
    rw [hs]
    have := submitPhase_await_of_ok cfg h ch.receiptResult
    simp [this]
  · intro t b
    have h1 : Event.printInsufficient t b ∉ queryEvents cfg w bal ubal gp := by
      simp [queryEvents]
    have h2 := submitPhase_no_insufficient cfg ch.sendResult ch.receiptResult t b
    simp [h1, h2]
  · intro t
    have h1 : Event.printTotalCost t ∉ queryEvents cfg w bal ubal gp := by
      simp [queryEvents]
    have h2 := submitPhase_no_totalCost cfg ch.sendResult ch.receiptResult t
    simp [h1, h2]

/-- C1 witness: the amended theorem applied to the concrete failing-estimation
chain — the diagnostic is printed and `submit` is still invoked. -/
theorem estimate_failure_falls_through_witness :
    Event.printEstimateFailed "execution reverted" ∈ (run cfgEx chEstFail).1 ∧
    submitEvent cfgEx ∈ (run cfgEx chEstFail).1 :=
  ⟨(estimate_failure_falls_through_to_submission cfgEx chEstFail 7
      1000000000000000000000 5 50 "execution reverted" rfl rfl rfl rfl rfl).1,
   (estimate_failure_falls_through_to_submission cfgEx chEstFail 7
      1000000000000000000000 5 50 "execution reverted" rfl rfl rfl rfl rfl).2.1⟩

/-- C2 counterexample: with `NONCE="10"` (and every other variable well
formed), configuration loading succeeds with nonce SIXTEEN, not ten — `U256`'s
`FromStr` parses hexadecimal; and the non-decimal string "ff" is accepted
(value 255) instead of being rejected. -/
theorem nonce_parsed_base16_cex :
    loadConfig envNonce10 = Except.ok cfgEx ∧ cfgEx.nonce = 16 ∧
    u256_from_str "ff" = Except.ok 255 := by decide

/-- C2 (amended): `NONCE` is parsed as a HEXADECIMAL integer: every unmarked
string of at most 64 hex digits parses to its base-16 value (so "10" yields
sixteen), and strings containing a non-hex character are rejected. -/
theorem nonce_parsed_as_hexadecimal :
    (∀ (s : String) (ds : List Nat),
        stripHexMarker s.toList = s.toList →
        s.toList.length ≤ 64 →
        allDigits? hexDigit? s.toList = some ds →
        u256_from_str s = Except.ok (baseVal 16 ds)) ∧
    (∀ s : String,
        stripHexMarker s.toList = s.toList →
        s.toList.length ≤ 64 →
        allDigits? hexDigit? s.toList = none →
        u256_from_str s = Except.error ⟨"invalid hex character"⟩) := by
  constructor
  · intro s ds hstrip hlen hds
    have hstrip' : stripHexMarker s.data = s.data := hstrip
    have hlen' : s.data.length ≤ 64 := hlen
    have hds' : allDigits? hexDigit? s.data = some ds := hds
    simp [u256_from_str, hstrip', hlen', digitsValue?_eq, hds']
    exact hlen
  · intro s hstrip hlen hds
    have hstrip' : stripHexMarker s.data = s.data := hstrip
    have hlen' : s.data.length ≤ 64 := hlen
    have hds' : allDigits? hexDigit? s.data = none := hds
    simp [u256_from_str, hstrip', hlen', digitsValue?_eq, hds']
    exact hlen

/-- C2 witness: the amended theorem applied to the string "10", whose hex
digits are [1, 0] and whose base-16 value is sixteen. -/
theorem nonce_parsed_as_hexadecimal_witness :
    u256_from_str "10" = Except.ok (baseVal 16 [1, 0]) :=
  nonce_parsed_as_hexadecimal.1 "10" [1, 0] (by decide) (by decide) (by decide)

/-- C3: when estimation succeeds and the total cost exceeds the wallet
balance, the run reports the insufficiency verdict, never invokes `submit` or
`await_receipt`, and terminates with exit code 0. -/
theorem insufficiency_halts_without_submission
    (cfg : Config) (ch : Chain) (w bal ubal gp gas total : Nat)
    (hc : ch.connect = Except.ok w)
    (hw : ch.walletBalance = Except.ok bal)
    (hu : ch.userBalance = Except.ok ubal)
    (hg : ch.gasPrice = Except.ok gp)
    (he : ch.estimateGas = Except.ok gas)
    (ht : computeTotalCost gas gp cfg.amount = some total)
    (hlt : total > bal) :
    Event.printInsufficient total bal ∈ (run cfg ch).1 ∧
    neverSubmits (run cfg ch).1 ∧ neverAwaits (run cfg ch).1 ∧
    (run cfg ch).2 = Outcome.ok := by
  rw [run_queries_ok cfg ch w bal ubal gp hc hw hu hg]
  have hphase : estimatePhase cfg ch.estimateGas ch.sendResult ch.receiptResult gp bal =
      ([Event.printEstimate gas, Event.printTotalCost total,
        Event.printInsufficient total bal], Outcome.ok) := by
    simp [estimatePhase.eq_def, he, ht, hlt]
  rw [hphase]
  refine ⟨by simp, ?_, ?_, rfl⟩
  · intro e he'
    simp only [List.mem_append] at he'
    rcases he' with h1 | h1
    · exact (queryEvents_no_submit cfg w bal ubal gp e h1).1
    · fin_cases h1 <;> rfl
  · intro e he'
    simp only [List.mem_append] at he'
    rcases he' with h1 | h1
    · exact (queryEvents_no_submit cfg w bal ubal gp e h1).2
    · fin_cases h1 <;> rfl

/-- C3 witness: end-to-end scenario B of the specification —
gas 21000 at price 50 with amount 10^18 against a balance of 5·10^17 gives
the insufficiency verdict with no submission and exit code 0. -/
theorem insufficiency_halts_witness :
    Event.printInsufficient 1000000000001050000 500000000000000000 ∈
      (run cfgEx chPoor).1 ∧
    neverSubmits (run cfgEx chPoor).1 ∧ neverAwaits (run cfgEx chPoor).1 ∧
    (run cfgEx chPoor).2 = Outcome.ok :=
  insufficiency_halts_without_submission cfgEx chPoor 7 500000000000000000 5 50
    21000 1000000000001050000 rfl rfl rfl rfl rfl (by decide) (by decide)

/-- C4: the reported label is derived exactly from the receipt's status field:
the label printed with the mined receipt is `statusLabel` of its status, which
is "Success" precisely when the status is 1 and "Failed" for every other
value, including an absent status. -/
theorem receipt_status_label_exact
    (cfg : Config) (ch : Chain) (w bal ubal gp gas total txh : Nat) (rc : Receipt)
    (hc : ch.connect = Except.ok w)
    (hw : ch.walletBalance = Except.ok bal)
    (hu : ch.userBalance = Except.ok ubal)
    (hg : ch.gasPrice = Except.ok gp)
    (he : ch.estimateGas = Except.ok gas)
    (ht : computeTotalCost gas gp cfg.amount = some total)
    (hle : ¬ total > bal)
    (hs : ch.sendResult = Except.ok txh)
    (hr : ch.receiptResult = Except.ok (some rc)) :
    Event.printMined rc.blockNumber (rc.gasUsed.getD 0) (statusLabel rc.status) ∈
      (run cfg ch).1 ∧
    (statusLabel rc.status = "Success" ↔ rc.status = some 1) ∧
    (rc.status ≠ some 1 → statusLabel rc.status = "Failed") ∧
    (run cfg ch).2 = Outcome.ok := by
  have h := run_receipt_reported cfg ch w bal ubal gp gas total txh rc
    hc hw hu hg he ht hle hs hr
  exact ⟨h.1, statusLabel_success_iff rc.status, statusLabel_failed rc.status, h.2⟩

/-- C4 witness: the theorem applied to a confirmed receipt with status 1 —
its label evaluates to "Success". -/
theorem receipt_status_label_witness :
    Event.printMined receiptOk.blockNumber (receiptOk.gasUsed.getD 0)
        (statusLabel receiptOk.status) ∈ (run cfgEx chHappy).1 ∧
    (statusLabel receiptOk.status = "Success" ↔ receiptOk.status = some 1) ∧
    (run cfgEx chHappy).2 = Outcome.ok :=
  ⟨(receipt_status_label_exact cfgEx chHappy 7 1000000000000000000000 5 50
      21000 1000000000001050000 42 receiptOk rfl rfl rfl rfl rfl (by decide)
      (by decide) rfl rfl).1,
   (receipt_status_label_exact cfgEx chHappy 7 1000000000000000000000 5 50
      21000 1000000000001050000 42 receiptOk rfl rfl rfl rfl rfl (by decide)
      (by decide) rfl rfl).2.1,
   (receipt_status_label_exact cfgEx chHappy 7 1000000000000000000000 5 50
      21000 1000000000001050000 42 receiptOk rfl rfl rfl rfl rfl (by decide)
      (by decide) rfl rfl).2.2.2⟩

/-- C5 counterexample: at gas estimate 2^128 and gas price 2^128 (both
representable `U256` values) the product reaches 2^256, so the code produces
no total cost at all (the `uint` multiplication panics) — refuting the claim
that the computed total always equals the exact unbounded value. -/
theorem total_cost_overflow_cex :
    computeTotalCost (2 ^ 128) (2 ^ 128) 0 = none ∧
    2 ^ 128 * 2 ^ 128 + 0 = 2 ^ 256 := by decide

/-- C5 (amended): `gas_estimate * gas_price + amount` is exact whenever the
unbounded result fits in 256 bits, and on overflow the computation produces
no value (the process panics) — it never silently wraps: any value it does
produce equals the exact unbounded sum. -/
theorem total_cost_exact_unless_overflow (g p a : Nat) :
    (g * p + a < u256Size → computeTotalCost g p a = some (g * p + a)) ∧
    (u256Size ≤ g * p + a → computeTotalCost g p a = none) ∧
    (∀ t, computeTotalCost g p a = some t → t = g * p + a) := by
  refine ⟨?_, ?_, ?_⟩
  · intro h
    have h1 : g * p < u256Size := lt_of_le_of_lt (Nat.le_add_right _ _) h
    simp [computeTotalCost, h1, h]
  · intro h
    by_cases h1 : g * p < u256Size
    · have h2 : ¬ g * p + a < u256Size := not_lt.mpr h
      simp [computeTotalCost, h1, h2]
    · simp [computeTotalCost, h1]
  · intro t h
    by_cases h1 : g * p < u256Size
    · by_cases h2 : g * p + a < u256Size
      · simp [computeTotalCost, h1, h2] at h
        exact h.symm
      · simp [computeTotalCost, h1, h2] at h
    · simp [computeTotalCost, h1] at h

/-- C5 witness: the amended theorem applied to scenario A's numbers — the
total cost is computed exactly. -/
theorem total_cost_exact_witness :
    computeTotalCost 21000 50 1000000000000000000 =
      some (21000 * 50 + 1000000000000000000) :=
  (total_cost_exact_unless_overflow 21000 50 1000000000000000000).1 (by decide)

/-- C6 counterexample: an environment missing `NONCE` and an environment
missing `SIGNATURE` produce the IDENTICAL configuration error ("environment
variable not found") — so the error cannot be naming the offending field,
refuting that part of the claim. -/
theorem config_error_does_not_name_field_cex :
    loadConfig envMissingNonce =
      Except.error ⟨"environment variable not found"⟩ ∧
    loadConfig envMissingSig =
      Except.error ⟨"environment variable not found"⟩ ∧
    envMissingNonce ≠ envMissingSig := by decide

/-- C6 (amended): configuration loading is deterministic — environments that
answer every variable lookup identically load identically — and a loading
error aborts the run before any event, in particular before any network
operation; but the error does not name the offending field. -/
theorem config_loading_deterministic_no_network :
    (∀ env1 env2 : List (String × String),
        (∀ k, envVar env1 k = envVar env2 k) →
        loadConfig env1 = loadConfig env2) ∧
    (∀ (env : List (String × String)) (ch : Chain) (e : ConfigError),
        loadConfig env = Except.error e →
        (fullRun env ch).1 = [] ∧
        (fullRun env ch).2 = Outcome.fatal e.message ∧
        ∀ ev ∈ (fullRun env ch).1, Event.isNetwork ev = false) := by
  constructor
  · intro env1 env2 h
    simp [loadConfig, h]
  · intro env ch e h
    refine ⟨?_, ?_, ?_⟩ <;> simp [fullRun, h]

/-- C6 witness: both parts of the amended theorem applied concretely — loading
the `NONCE`-less environment twice is deterministic, and its failing run emits
no event at all. -/
theorem config_loading_witness :
    loadConfig envMissingNonce = loadConfig envMissingNonce ∧
    (fullRun envMissingNonce chHappy).1 = [] :=
  ⟨config_loading_deterministic_no_network.1 envMissingNonce envMissingNonce
      (fun k => rfl),
   (config_loading_deterministic_no_network.2 envMissingNonce chHappy
      ⟨"environment variable not found"⟩ (by decide)).1⟩

/-- C7: when submission succeeds but the confirmation wait yields no receipt,
the run reports the missing receipt and terminates with exit code 0, and no
mined-receipt report (the distinct receipt-with-status outcome) appears. -/
theorem missing_receipt_reported_not_fatal
    (cfg : Config) (ch : Chain) (w bal ubal gp gas total txh : Nat)
    (hc : ch.connect = Except.ok w)
    (hw : ch.walletBalance = Except.ok bal)
    (hu : ch.userBalance = Except.ok ubal)
    (hg : ch.gasPrice = Except.ok gp)
    (he : ch.estimateGas = Except.ok gas)
    (ht : computeTotalCost gas gp cfg.amount = some total)
    (hle : ¬ total > bal)
    (hs : ch.sendResult = Except.ok txh)
    (hr : ch.receiptResult = Except.ok none) :
    Event.printNoReceipt ∈ (run cfg ch).1 ∧
    (run cfg ch).2 = Outcome.ok ∧
    (∀ b g s, Event.printMined b g s ∉ (run cfg ch).1) := by
  rw [run_queries_ok cfg ch w bal ubal gp hc hw hu hg]
  have hphase : estimatePhase cfg ch.estimateGas ch.sendResult ch.receiptResult gp bal =
      (Event.printEstimate gas :: Event.printTotalCost total ::
         Event.printSufficient :: (submitPhase cfg ch.sendResult ch.receiptResult).1,
       (submitPhase cfg ch.sendResult ch.receiptResult).2) := by
    simp [estimatePhase.eq_def, he, ht, hle]
  have hsub : submitPhase cfg ch.sendResult ch.receiptResult =
      ([submitEvent cfg, Event.printTxHash txh, Event.awaitReceiptCall,
        Event.printNoReceipt], Outcome.ok) := by
    simp [submitPhase, hs, hr]
  rw [hphase, hsub]
  refine ⟨by simp, rfl, ?_⟩
  intro b g s
  simp [queryEvents, submitEvent]

/-- C7 witness: end-to-end scenario D — the broadcast succeeds, the wait
returns no receipt, the run reports it and exits 0. -/
theorem missing_receipt_witness :
    Event.printNoReceipt ∈ (run cfgEx chNoReceipt).1 ∧
    (run cfgEx chNoReceipt).2 = Outcome.ok :=
  ⟨(missing_receipt_reported_not_fatal cfgEx chNoReceipt 7
      1000000000000000000000 5 50 21000 1000000000001050000 42
      rfl rfl rfl rfl rfl (by decide) (by decide) rfl rfl).1,
   (missing_receipt_reported_not_fatal cfgEx chNoReceipt 7
      1000000000000000000000 5 50 21000 1000000000001050000 42
      rfl rfl rfl rfl rfl (by decide) (by decide) rfl rfl).2.1⟩

/-- C8: a rejected broadcast terminates the process with a non-zero outcome
carrying the error message, `await_receipt` is never invoked; and in general
an exit-code-0 run always reaches one of the defined end-of-run reports
(insufficiency verdict, mined receipt, or missing receipt). -/
theorem submission_error_fatal_no_await
    (cfg : Config) (ch : Chain) (w bal ubal gp gas total : Nat) (err : String)
    (hc : ch.connect = Except.ok w)
    (hw : ch.walletBalance = Except.ok bal)
    (hu : ch.userBalance = Except.ok ubal)
    (hg : ch.gasPrice = Except.ok gp)
    (he : ch.estimateGas = Except.ok gas)
    (ht : computeTotalCost gas gp cfg.amount = some total)
    (hle : ¬ total > bal)
    (hs : ch.sendResult = Except.error err) :
    (run cfg ch).2 = Outcome.fatal err ∧
    Outcome.exitsZero (run cfg ch).2 = false ∧
    submitEvent cfg ∈ (run cfg ch).1 ∧
    neverAwaits (run cfg ch).1 ∧
    (∀ (cfg' : Config) (ch' : Chain), (run cfg' ch').2 = Outcome.ok →
        (∃ t b, Event.printInsufficient t b ∈ (run cfg' ch').1) ∨
        (∃ bl g s, Event.printMined bl g s ∈ (run cfg' ch').1) ∨
        Event.printNoReceipt ∈ (run cfg' ch').1) := by
  rw [run_queries_ok cfg ch w bal ubal gp hc hw hu hg]
  have hphase : estimatePhase cfg ch.estimateGas ch.sendResult ch.receiptResult gp bal =
      (Event.printEstimate gas :: Event.printTotalCost total ::
         Event.printSufficient :: (submitPhase cfg ch.sendResult ch.receiptResult).1,
       (submitPhase cfg ch.sendResult ch.receiptResult).2) := by
    simp [estimatePhase.eq_def, he, ht, hle]
  have hsub : submitPhase cfg ch.sendResult ch.receiptResult =
      ([submitEvent cfg], Outcome.fatal err) := by
    simp [submitPhase, hs]
  rw [hphase, hsub]
  refine ⟨rfl, rfl, by simp, ?_, fun cfg' ch' => run_ok_cases cfg' ch'⟩
  intro e he'
  simp only [List.mem_append] at he'
  rcases he' with h1 | h1
  · exact (queryEvents_no_submit cfg w bal ubal gp e h1).2
  · fin_cases h1 <;> rfl

/-- C8 witness: the theorem applied to a chain whose broadcast is rejected
with "nonce too low" — the run ends with that fatal error, exit non-zero,
and never awaits a receipt. -/
theorem submission_error_witness :
    (run cfgEx chSendFail).2 = Outcome.fatal "nonce too low" ∧
    Outcome.exitsZero (run cfgEx chSendFail).2 = false ∧
    submitEvent cfgEx ∈ (run cfgEx chSendFail).1 ∧
    neverAwaits (run cfgEx chSendFail).1 :=
  ⟨(submission_error_fatal_no_await cfgEx chSendFail 7 1000000000000000000000
      5 50 21000 1000000000001050000 "nonce too low" rfl rfl rfl rfl rfl
      (by decide) (by decide) rfl).1,
   (submission_error_fatal_no_await cfgEx chSendFail 7 1000000000000000000000
      5 50 21000 1000000000001050000 "nonce too low" rfl rfl rfl rfl rfl
      (by decide) (by decide) rfl).2.1,
   (submission_error_fatal_no_await cfgEx chSendFail 7 1000000000000000000000
      5 50 21000 1000000000001050000 "nonce too low" rfl rfl rfl rfl rfl
      (by decide) (by decide) rfl).2.2.1,
   (submission_error_fatal_no_await cfgEx chSendFail 7 1000000000000000000000
      5 50 21000 1000000000001050000 "nonce too low" rfl rfl rfl rfl rfl
      (by decide) (by decide) rfl).2.2.2.1⟩

/-- C9: the user balance is printed but never influences behaviour — two runs
differing only in the value returned by the user-balance query have the same
outcome (hence the same verdict, submission decision, submitted arguments and
exit code), and their traces agree once the printed user-balance value is
redacted. -/
theorem user_balance_does_not_influence_run
    (cfg : Config) (ch : Chain) (v1 v2 : Nat) :
    (run cfg { ch with userBalance := Except.ok v1 }).2 =
      (run cfg { ch with userBalance := Except.ok v2 }).2 ∧
    (run cfg { ch with userBalance := Except.ok v1 }).1.map redactUserBalance =
      (run cfg { ch with userBalance := Except.ok v2 }).1.map redactUserBalance := by
  obtain ⟨cn, wb, ub, gp, eg, sr, rr⟩ := ch
  cases cn <;> cases wb <;> cases gp <;> simp [run, redactUserBalance]

/-- C10: a receipt that is present but carries no gas-used field does not fail
the run — the report prints the default gas-used value 0 together with the
status label, and the run exits 0. -/
theorem missing_gas_used_defaults_to_zero
    (cfg : Config) (ch : Chain) (w bal ubal gp gas total txh : Nat) (rc : Receipt)
    (hc : ch.connect = Except.ok w)
    (hw : ch.walletBalance = Except.ok bal)
    (hu : ch.userBalance = Except.ok ubal)
    (hg : ch.gasPrice = Except.ok gp)
    (he : ch.estimateGas = Except.ok gas)
    (ht : computeTotalCost gas gp cfg.amount = some total)
    (hle : ¬ total > bal)
    (hs : ch.sendResult = Except.ok txh)
    (hr : ch.receiptResult = Except.ok (some rc))
    (hgu : rc.gasUsed = none) :
    Event.printMined rc.blockNumber 0 (statusLabel rc.status) ∈ (run cfg ch).1 ∧
    (run cfg ch).2 = Outcome.ok := by
  have h := run_receipt_reported cfg ch w bal ubal gp gas total txh rc
    hc hw hu hg he ht hle hs hr
  rw [hgu] at h
  exact ⟨by simpa using h.1, h.2⟩

/-- C10 witness: the theorem applied to a receipt with `gasUsed = none` —
the report prints gas used 0 and the label for status 0 ("Failed"). -/
theorem missing_gas_used_witness :
    Event.printMined receiptNoGas.blockNumber 0 (statusLabel receiptNoGas.status) ∈
      (run cfgEx chNoGasUsed).1 ∧
    (run cfgEx chNoGasUsed).2 = Outcome.ok :=
  missing_gas_used_defaults_to_zero cfgEx chNoGasUsed 7 1000000000000000000000
    5 50 21000 1000000000001050000 42 receiptNoGas rfl rfl rfl rfl rfl
    (by decide) (by decide) rfl rfl rfl
